import Mathlib

/-!
Verification of the CV-builder application (`src/app.py`).

The development shallowly embeds the two core routines of the program:

* `enhance_with_groq` — the Content Enhancer (`app.py`, lines 56–103).
  The network interaction is abstracted by a `NetResult` value describing
  the outcome of the single HTTP POST; the function additionally returns
  the number of network calls it performed.

* `create_cv_document` — the Document Assembler (`app.py`, lines 105–205).
  A python-docx document is modelled as a `List DocItem`; the formatting
  of each paragraph (bold run, bullet style, centered title) is recorded
  in the `DocItem` constructor.  The per-section enhancement call is
  abstracted by a function parameter `enh : String → String → String`
  (text, section kind); the assembler also counts how many times the
  enhancer is invoked, mirroring the call sites in the source.

* the generation handler inside `main` (`app.py`, lines 361–392):
  required-field validation followed by the try/except around document
  assembly, modelled by `generate_cv` over an abstract assembly outcome.

Python string truthiness (`if cv_data.get('name')`) is `≠ ""`;
`text.strip()` is the `strip` function below; a missing credential is `""`.
-/

/-- One experience entry as collected by the form (`app.py`, lines 264–269):
all four keys are always present, holding (possibly empty) strings. -/
structure ExperienceEntry where
  position : String
  company : String
  duration : String
  description : String
deriving DecidableEq, Repr

/-- One education entry (`app.py`, lines 302–307). -/
structure EducationEntry where
  degree : String
  institution : String
  year : String
  details : String
deriving DecidableEq, Repr

/-- The complete document input (`cv_data` dict built at `app.py`, lines 335–342). -/
structure CVRecord where
  name : String
  profile : String
  experience : List ExperienceEntry
  education : List EducationEntry
  skills : String
  activities : String
deriving DecidableEq, Repr

/-- Outcome of the single HTTP POST issued by the enhancer:
either an exception (network error, timeout, …), or a response with a
status code and the optional `choices[0].message.content` string
(`none` models a malformed payload, whose extraction raises inside the
`try` block). -/
inductive NetResult where
  | exn (msg : String)
  | resp (status : Nat) (content : Option String)
deriving DecidableEq, Repr

/-- Python's `str.strip()`: drops leading and trailing whitespace.
Defined structurally over the character list so that it evaluates by
kernel reduction. -/
def strip (s : String) : String :=
  String.mk (((s.data.dropWhile Char.isWhitespace).reverse.dropWhile
    Char.isWhitespace).reverse)

/-- The section-specific prompt templates (`app.py`, lines 61–67) with the
generic fallback used by `prompts.get` (line 79). -/
def promptFor (section_type text : String) : String :=
  if section_type = "profile" then
    "Enhance this professional profile/summary for a CV to make it more compelling and ATS-friendly while keeping it concise (2-3 sentences): " ++ text
  else if section_type = "experience" then
    "Enhance this work experience description for a CV using action verbs, quantifiable achievements, and professional language: " ++ text
  else if section_type = "education" then
    "Enhance this education information for a CV, making it more professional and comprehensive: " ++ text
  else if section_type = "skills" then
    "Enhance and organize these skills for a CV, grouping them professionally and using industry-standard terminology: " ++ text
  else if section_type = "activities" then
    "Enhance these activities and interests for a CV, focusing on professional relevance and leadership qualities: " ++ text
  else
    "Enhance this text for a professional CV: " ++ text

/-- `enhance_with_groq` (`app.py`, lines 56–103).  Returns the resulting
text together with the number of network calls made (0 or 1).

* line 58: `if not groq_api_key or not text.strip(): return text` — no call;
* lines 87–92: otherwise exactly one POST is made, whose outcome is `net`;
* line 94–96: on status 200 the payload content is extracted and trimmed —
  a malformed payload (`content = none`) raises, is caught by the
  `except` (lines 101–103) and the original text is returned;
* lines 97–99: non-200 status → warning, original text;
* lines 101–103: any exception → warning, original text. -/
def enhance_with_groq (text section_type groq_api_key : String) (net : NetResult) :
    String × Nat :=
  if groq_api_key = "" ∨ strip text = "" then
    (text, 0)
  else
    match net with
    | NetResult.exn _ => (text, 1)
    | NetResult.resp status content =>
        if status = 200 then
          match content with
          | some c => (strip c, 1)
          | none => (text, 1)
        else (text, 1)

/-- One paragraph-level element of the assembled document.  The
constructor records the formatting applied in `create_cv_document`:
`titlePara` is the centered bold large-font name paragraph (lines
119–123), `boldPara` a paragraph whose single run is bold (lines
142–144, 169–171), `bulletPara` a `'List Bullet'`-styled paragraph
(lines 148–149), `para` a plain paragraph, `spacer` an empty
`doc.add_paragraph()`, and `heading` a level-1 heading. -/
inductive DocItem where
  | titlePara (text : String)
  | heading (text : String)
  | para (text : String)
  | boldPara (text : String)
  | bulletPara (text : String)
  | spacer
deriving DecidableEq, Repr

/-- The per-entry rendering guard for experience entries
(`app.py`, line 139): `exp.get('company') or exp.get('position') or
exp.get('description')`. -/
def expCheck (e : ExperienceEntry) : Bool :=
  e.company != "" || e.position != "" || e.description != ""

/-- The per-entry rendering guard for education entries
(`app.py`, line 166). -/
def eduCheck (e : EducationEntry) : Bool :=
  e.degree != "" || e.institution != "" || e.details != ""

/-- Items emitted for a single experience entry (`app.py`, lines 139–159),
paired with the number of enhancer invocations.  `flag` is
`enhance_with_ai and groq_api_key` (line 154); `isLast` is the negation of
`i < len(cv_data['experience']) - 1` (line 158). -/
def expEntryItems (flag : Bool) (enh : String → String → String)
    (isLast : Bool) (e : ExperienceEntry) : List DocItem × Nat :=
  if expCheck e then
    let job := if e.position != "" && e.company != "" then
        [DocItem.boldPara (e.position ++ " - " ++ e.company)] else []
    let dur := if e.duration != "" then [DocItem.bulletPara e.duration] else []
    let desc := if e.description != "" then
        [DocItem.para (if flag then enh e.description "experience" else e.description)]
      else []
    let sp := if isLast then [] else [DocItem.spacer]
    (job ++ dur ++ desc ++ sp, if e.description != "" && flag then 1 else 0)
  else ([], 0)

/-- The `for i, exp in enumerate(...)` loop of `app.py`, lines 138–159:
the spacer condition `i < len(...) - 1` holds exactly for entries that are
not in the final list position. -/
def expEntriesItems (flag : Bool) (enh : String → String → String) :
    List ExperienceEntry → List DocItem × Nat
  | [] => ([], 0)
  | [e] => expEntryItems flag enh true e
  | e :: e2 :: rest =>
      let p := expEntryItems flag enh false e
      let q := expEntriesItems flag enh (e2 :: rest)
      (p.1 ++ q.1, p.2 + q.2)

/-- The Experience section (`app.py`, lines 136–160): guarded by the
truthiness of the list, a heading, the entry loop, and one trailing
spacer. -/
def expSection (flag : Bool) (enh : String → String → String)
    (exps : List ExperienceEntry) : List DocItem × Nat :=
  if exps.isEmpty then ([], 0)
  else
    let body := expEntriesItems flag enh exps
    (DocItem.heading "Experience" :: body.1 ++ [DocItem.spacer], body.2)

/-- Items emitted for a single education entry (`app.py`, lines 165–185). -/
def eduEntryItems (flag : Bool) (enh : String → String → String)
    (isLast : Bool) (e : EducationEntry) : List DocItem × Nat :=
  if eduCheck e then
    let deg := if e.degree != "" && e.institution != "" then
        [DocItem.boldPara (e.degree ++ " - " ++ e.institution)] else []
    let yr := if e.year != "" then [DocItem.para e.year] else []
    let det := if e.details != "" then
        [DocItem.para (if flag then enh e.details "education" else e.details)]
      else []
    let sp := if isLast then [] else [DocItem.spacer]
    (deg ++ yr ++ det ++ sp, if e.details != "" && flag then 1 else 0)
  else ([], 0)

/-- The education entry loop (`app.py`, lines 165–185). -/
def eduEntriesItems (flag : Bool) (enh : String → String → String) :
    List EducationEntry → List DocItem × Nat
  | [] => ([], 0)
  | [e] => eduEntryItems flag enh true e
  | e :: e2 :: rest =>
      let p := eduEntryItems flag enh false e
      let q := eduEntriesItems flag enh (e2 :: rest)
      (p.1 ++ q.1, p.2 + q.2)

/-- The Education section (`app.py`, lines 163–186). -/
def eduSection (flag : Bool) (enh : String → String → String)
    (edus : List EducationEntry) : List DocItem × Nat :=
  if edus.isEmpty then ([], 0)
  else
    let body := eduEntriesItems flag enh edus
    (DocItem.heading "Education" :: body.1 ++ [DocItem.spacer], body.2)

/-- `create_cv_document` (`app.py`, lines 105–205): the document items in
emission order, paired with the total number of `enhance_with_groq`
invocations.  Every section guard is Python truthiness of the source
field; each enhancement site is guarded by
`if enhance_with_ai and groq_api_key` (lines 130, 154, 180, 192, 201). -/
def create_cv_document (cv : CVRecord) (enhance_with_ai : Bool)
    (groq_api_key : String) (enh : String → String → String) :
    List DocItem × Nat :=
  let flag := enhance_with_ai && groq_api_key != ""
  let nameItems : List DocItem :=
    if cv.name != "" then [DocItem.titlePara cv.name, DocItem.spacer] else []
  let profileItems : List DocItem :=
    if cv.profile != "" then
      [DocItem.heading "Profile",
        DocItem.para (if flag then enh cv.profile "profile" else cv.profile),
        DocItem.spacer]
    else []
  let profileCalls : Nat := if cv.profile != "" && flag then 1 else 0
  let expPart := expSection flag enh cv.experience
  let eduPart := eduSection flag enh cv.education
  let skillsItems : List DocItem :=
    if cv.skills != "" then
      [DocItem.heading "Skills & Abilities",
        DocItem.para (if flag then enh cv.skills "skills" else cv.skills),
        DocItem.spacer]
    else []
  let skillsCalls : Nat := if cv.skills != "" && flag then 1 else 0
  let actItems : List DocItem :=
    if cv.activities != "" then
      [DocItem.heading "Activities and Interests",
        DocItem.para (if flag then enh cv.activities "activities" else cv.activities)]
    else []
  let actCalls : Nat := if cv.activities != "" && flag then 1 else 0
  (nameItems ++ profileItems ++ expPart.1 ++ eduPart.1 ++ skillsItems ++ actItems,
   profileCalls + expPart.2 + eduPart.2 + skillsCalls + actCalls)

/-- Result of pressing the Generate button (`app.py`, lines 361–392). -/
inductive GenerateResult where
  | validationError (msg : String)
  | generated (items : List DocItem)
  | generationError (msg : String)
deriving DecidableEq, Repr

/-- The generation handler (`app.py`, lines 361–392): required-field
validation `if not name or not profile or not skills` (line 362) with the
fixed error string of line 363, then the try/except of lines 366–392
around document assembly, whose outcome (`ok` items, or `error` with the
exception message) is the `assembly` parameter.  On an exception the
handler shows `f"Error generating CV: {str(e)}"` and offers no download. -/
def generate_cv (cv : CVRecord) (assembly : Except String (List DocItem)) :
    GenerateResult :=
  if cv.name = "" ∨ cv.profile = "" ∨ cv.skills = "" then
    GenerateResult.validationError "Please fill in all required fields (marked with *)"
  else
    match assembly with
    | Except.ok d => GenerateResult.generated d
    | Except.error e => GenerateResult.generationError ("Error generating CV: " ++ e)

/-- The non-raising generation path: validation followed by assembly of
the record itself (`app.py`, lines 361–370, with
`enhance_with_ai and groq_api_key` passed as the enhancement flag). -/
def generate_cv_ok (cv : CVRecord) (enhance_with_ai : Bool)
    (groq_api_key : String) (enh : String → String → String) : GenerateResult :=
  generate_cv cv
    (Except.ok (create_cv_document cv (enhance_with_ai && groq_api_key != "")
      groq_api_key enh).1)

/-- Erases the text of plain paragraphs, keeping every other item (and all
formatting-bearing items) intact; used to state which parts of the
document the enhancer can influence. -/
def eraseParaText : DocItem → DocItem
  | DocItem.para _ => DocItem.para ""
  | x => x

/-! ### Helper lemmas -/

/-- Membership in a conditionally-present list segment. -/
theorem mem_ite_nil {α : Type} (c : Prop) [Decidable c] (l : List α) (a : α) :
    a ∈ (if c then l else []) ↔ c ∧ a ∈ l := by
  split <;> simp_all

/-- No level-1 heading is emitted inside an experience entry. -/
theorem heading_not_mem_expEntryItems (flag : Bool) (enh : String → String → String)
    (isLast : Bool) (e : ExperienceEntry) (t : String) :
    DocItem.heading t ∉ (expEntryItems flag enh isLast e).1 := by
  simp only [expEntryItems]
  split
  · split_ifs <;> simp
  · simp

/-- No centered title paragraph is emitted inside an experience entry. -/
theorem titlePara_not_mem_expEntryItems (flag : Bool) (enh : String → String → String)
    (isLast : Bool) (e : ExperienceEntry) (s : String) :
    DocItem.titlePara s ∉ (expEntryItems flag enh isLast e).1 := by
  simp only [expEntryItems]
  split
  · split_ifs <;> simp
  · simp

/-- No level-1 heading is emitted by the experience entry loop. -/
theorem heading_not_mem_expEntriesItems (flag : Bool) (enh : String → String → String)
    (t : String) : ∀ exps, DocItem.heading t ∉ (expEntriesItems flag enh exps).1
  | [] => by simp [expEntriesItems]
  | [e] => by
      simp only [expEntriesItems]
      exact heading_not_mem_expEntryItems flag enh true e t
  | e :: e2 :: rest => by
      simp only [expEntriesItems, List.mem_append, not_or]
      exact ⟨heading_not_mem_expEntryItems flag enh false e t,
        heading_not_mem_expEntriesItems flag enh t (e2 :: rest)⟩

/-- No centered title paragraph is emitted by the experience entry loop. -/
theorem titlePara_not_mem_expEntriesItems (flag : Bool) (enh : String → String → String)
    (s : String) : ∀ exps, DocItem.titlePara s ∉ (expEntriesItems flag enh exps).1
  | [] => by simp [expEntriesItems]
  | [e] => by
      simp only [expEntriesItems]
      exact titlePara_not_mem_expEntryItems flag enh true e s
  | e :: e2 :: rest => by
      simp only [expEntriesItems, List.mem_append, not_or]
      exact ⟨titlePara_not_mem_expEntryItems flag enh false e s,
        titlePara_not_mem_expEntriesItems flag enh s (e2 :: rest)⟩

/-- No level-1 heading is emitted inside an education entry. -/
theorem heading_not_mem_eduEntryItems (flag : Bool) (enh : String → String → String)
    (isLast : Bool) (e : EducationEntry) (t : String) :
    DocItem.heading t ∉ (eduEntryItems flag enh isLast e).1 := by
  simp only [eduEntryItems]
  split
  · split_ifs <;> simp
  · simp

/-- No centered title paragraph is emitted inside an education entry. -/
theorem titlePara_not_mem_eduEntryItems (flag : Bool) (enh : String → String → String)
    (isLast : Bool) (e : EducationEntry) (s : String) :
    DocItem.titlePara s ∉ (eduEntryItems flag enh isLast e).1 := by
  simp only [eduEntryItems]
  split
  · split_ifs <;> simp
  · simp

/-- No level-1 heading is emitted by the education entry loop. -/
theorem heading_not_mem_eduEntriesItems (flag : Bool) (enh : String → String → String)
    (t : String) : ∀ edus, DocItem.heading t ∉ (eduEntriesItems flag enh edus).1
  | [] => by simp [eduEntriesItems]
  | [e] => by
      simp only [eduEntriesItems]
      exact heading_not_mem_eduEntryItems flag enh true e t
  | e :: e2 :: rest => by
      simp only [eduEntriesItems, List.mem_append, not_or]
      exact ⟨heading_not_mem_eduEntryItems flag enh false e t,
        heading_not_mem_eduEntriesItems flag enh t (e2 :: rest)⟩

/-- No centered title paragraph is emitted by the education entry loop. -/
theorem titlePara_not_mem_eduEntriesItems (flag : Bool) (enh : String → String → String)
    (s : String) : ∀ edus, DocItem.titlePara s ∉ (eduEntriesItems flag enh edus).1
  | [] => by simp [eduEntriesItems]
  | [e] => by
      simp only [eduEntriesItems]
      exact titlePara_not_mem_eduEntryItems flag enh true e s
  | e :: e2 :: rest => by
      simp only [eduEntriesItems, List.mem_append, not_or]
      exact ⟨titlePara_not_mem_eduEntryItems flag enh false e s,
        titlePara_not_mem_eduEntriesItems flag enh s (e2 :: rest)⟩

/-- Membership of a heading in the Experience section. -/
theorem heading_mem_expSection (flag : Bool) (enh : String → String → String)
    (exps : List ExperienceEntry) (t : String) :
    DocItem.heading t ∈ (expSection flag enh exps).1 ↔ (exps ≠ [] ∧ t = "Experience") := by
  cases exps with
  | nil => simp [expSection]
  | cons e rest =>
      simp [expSection, List.mem_append,
        heading_not_mem_expEntriesItems flag enh t (e :: rest), eq_comm]

/-- Membership of a heading in the Education section. -/
theorem heading_mem_eduSection (flag : Bool) (enh : String → String → String)
    (edus : List EducationEntry) (t : String) :
    DocItem.heading t ∈ (eduSection flag enh edus).1 ↔ (edus ≠ [] ∧ t = "Education") := by
  cases edus with
  | nil => simp [eduSection]
  | cons e rest =>
      simp [eduSection, List.mem_append,
        heading_not_mem_eduEntriesItems flag enh t (e :: rest), eq_comm]

/-- No centered title paragraph is emitted by the Experience section. -/
theorem titlePara_not_mem_expSection (flag : Bool) (enh : String → String → String)
    (exps : List ExperienceEntry) (s : String) :
    DocItem.titlePara s ∉ (expSection flag enh exps).1 := by
  cases exps with
  | nil => simp [expSection]
  | cons e rest =>
      simp [expSection, List.mem_append,
        titlePara_not_mem_expEntriesItems flag enh s (e :: rest)]

/-- No centered title paragraph is emitted by the Education section. -/
theorem titlePara_not_mem_eduSection (flag : Bool) (enh : String → String → String)
    (edus : List EducationEntry) (s : String) :
    DocItem.titlePara s ∉ (eduSection flag enh edus).1 := by
  cases edus with
  | nil => simp [eduSection]
  | cons e rest =>
      simp [eduSection, List.mem_append,
        titlePara_not_mem_eduEntriesItems flag enh s (e :: rest)]

/-- Enhancer invocations of a single experience entry. -/
theorem expEntryItems_count (flag : Bool) (enh : String → String → String)
    (isLast : Bool) (e : ExperienceEntry) :
    (expEntryItems flag enh isLast e).2
      = if e.description != "" && flag then 1 else 0 := by
  simp only [expEntryItems]
  split
  · rfl
  · rename_i h
    simp only [expCheck, Bool.or_eq_true, bne_iff_ne, ne_eq] at h
    push_neg at h
    simp [h.2]

/-- Enhancer invocations of the experience entry loop: one per entry with a
non-empty description, when enhancement is active. -/
theorem expEntriesItems_count (flag : Bool) (enh : String → String → String) :
    ∀ exps, (expEntriesItems flag enh exps).2
      = if flag then exps.countP (fun x => x.description != "") else 0
  | [] => by cases flag <;> simp [expEntriesItems]
  | [e] => by
      simp only [expEntriesItems, expEntryItems_count, List.countP_cons,
        List.countP_nil]
      cases flag <;> cases h : e.description != "" <;> simp [h]
  | e :: e2 :: rest => by
      simp only [expEntriesItems, expEntryItems_count,
        expEntriesItems_count flag enh (e2 :: rest), List.countP_cons]
      cases flag <;> cases h : e.description != "" <;> simp [h] <;> omega

/-- Enhancer invocations of the Experience section. -/
theorem expSection_count (flag : Bool) (enh : String → String → String)
    (exps : List ExperienceEntry) :
    (expSection flag enh exps).2
      = if flag then exps.countP (fun x => x.description != "") else 0 := by
  cases exps with
  | nil => cases flag <;> simp [expSection]
  | cons e rest => simp [expSection, expEntriesItems_count]

/-- Enhancer invocations of a single education entry. -/
theorem eduEntryItems_count (flag : Bool) (enh : String → String → String)
    (isLast : Bool) (e : EducationEntry) :
    (eduEntryItems flag enh isLast e).2
      = if e.details != "" && flag then 1 else 0 := by
  simp only [eduEntryItems]
  split
  · rfl
  · rename_i h
    simp only [eduCheck, Bool.or_eq_true, bne_iff_ne, ne_eq] at h
    push_neg at h
    simp [h.2]

/-- Enhancer invocations of the education entry loop. -/
theorem eduEntriesItems_count (flag : Bool) (enh : String → String → String) :
    ∀ edus, (eduEntriesItems flag enh edus).2
      = if flag then edus.countP (fun x => x.details != "") else 0
  | [] => by cases flag <;> simp [eduEntriesItems]
  | [e] => by
      simp only [eduEntriesItems, eduEntryItems_count, List.countP_cons,
        List.countP_nil]
      cases flag <;> cases h : e.details != "" <;> simp [h]
  | e :: e2 :: rest => by
      simp only [eduEntriesItems, eduEntryItems_count,
        eduEntriesItems_count flag enh (e2 :: rest), List.countP_cons]
      cases flag <;> cases h : e.details != "" <;> simp [h] <;> omega

/-- Enhancer invocations of the Education section. -/
theorem eduSection_count (flag : Bool) (enh : String → String → String)
    (edus : List EducationEntry) :
    (eduSection flag enh edus).2
      = if flag then edus.countP (fun x => x.details != "") else 0 := by
  cases edus with
  | nil => cases flag <;> simp [eduSection]
  | cons e rest => simp [eduSection, eduEntriesItems_count]

/-- After erasing plain-paragraph text, a rendered experience entry does
not depend on the enhancement flag or on the enhancer function. -/
theorem erase_expEntryItems (flag1 flag2 : Bool) (enh1 enh2 : String → String → String)
    (isLast : Bool) (e : ExperienceEntry) :
    (expEntryItems flag1 enh1 isLast e).1.map eraseParaText
      = (expEntryItems flag2 enh2 isLast e).1.map eraseParaText := by
  by_cases h : expCheck e
  · simp only [expEntryItems, h, if_true]
    split_ifs <;> simp [eraseParaText]
  · simp [expEntryItems, h]

/-- Erasure invariance for the experience entry loop. -/
theorem erase_expEntriesItems (flag1 flag2 : Bool) (enh1 enh2 : String → String → String) :
    ∀ exps, (expEntriesItems flag1 enh1 exps).1.map eraseParaText
      = (expEntriesItems flag2 enh2 exps).1.map eraseParaText
  | [] => by simp [expEntriesItems]
  | [e] => by
      simp only [expEntriesItems]
      exact erase_expEntryItems flag1 flag2 enh1 enh2 true e
  | e :: e2 :: rest => by
      simp only [expEntriesItems, List.map_append]
      rw [erase_expEntryItems flag1 flag2 enh1 enh2 false e,
        erase_expEntriesItems flag1 flag2 enh1 enh2 (e2 :: rest)]

/-- Erasure invariance for the Experience section. -/
theorem erase_expSection (flag1 flag2 : Bool) (enh1 enh2 : String → String → String)
    (exps : List ExperienceEntry) :
    (expSection flag1 enh1 exps).1.map eraseParaText
      = (expSection flag2 enh2 exps).1.map eraseParaText := by
  cases exps with
  | nil => simp [expSection]
  | cons e rest =>
      simp [expSection, List.map_append,
        erase_expEntriesItems flag1 flag2 enh1 enh2 (e :: rest)]

/-- After erasing plain-paragraph text, a rendered education entry does
not depend on the enhancement flag or on the enhancer function. -/
theorem erase_eduEntryItems (flag1 flag2 : Bool) (enh1 enh2 : String → String → String)
    (isLast : Bool) (e : EducationEntry) :
    (eduEntryItems flag1 enh1 isLast e).1.map eraseParaText
      = (eduEntryItems flag2 enh2 isLast e).1.map eraseParaText := by
  by_cases h : eduCheck e
  · simp only [eduEntryItems, h, if_true]
    split_ifs <;> simp [eraseParaText]
  · simp [eduEntryItems, h]

/-- Erasure invariance for the education entry loop. -/
theorem erase_eduEntriesItems (flag1 flag2 : Bool) (enh1 enh2 : String → String → String) :
    ∀ edus, (eduEntriesItems flag1 enh1 edus).1.map eraseParaText
      = (eduEntriesItems flag2 enh2 edus).1.map eraseParaText
  | [] => by simp [eduEntriesItems]
  | [e] => by
      simp only [eduEntriesItems]
      exact erase_eduEntryItems flag1 flag2 enh1 enh2 true e
  | e :: e2 :: rest => by
      simp only [eduEntriesItems, List.map_append]
      rw [erase_eduEntryItems flag1 flag2 enh1 enh2 false e,
        erase_eduEntriesItems flag1 flag2 enh1 enh2 (e2 :: rest)]

/-- Erasure invariance for the Education section. -/
theorem erase_eduSection (flag1 flag2 : Bool) (enh1 enh2 : String → String → String)
    (edus : List EducationEntry) :
    (eduSection flag1 enh1 edus).1.map eraseParaText
      = (eduSection flag2 enh2 edus).1.map eraseParaText := by
  cases edus with
  | nil => simp [eduSection]
  | cons e rest =>
      simp [eduSection, List.map_append,
        erase_eduEntriesItems flag1 flag2 enh1 enh2 (e :: rest)]

/-- Erasure invariance for the whole assembled document: after erasing the
text of plain paragraphs, the document depends only on the record. -/
theorem erase_create_cv_document (cv : CVRecord) (e1 e2 : Bool) (k1 k2 : String)
    (enh1 enh2 : String → String → String) :
    (create_cv_document cv e1 k1 enh1).1.map eraseParaText
      = (create_cv_document cv e2 k2 enh2).1.map eraseParaText := by
  simp only [create_cv_document, List.map_append]
  rw [erase_expSection (e1 && k1 != "") (e2 && k2 != "") enh1 enh2 cv.experience,
    erase_eduSection (e1 && k1 != "") (e2 && k2 != "") enh1 enh2 cv.education]
  have hp : (if cv.profile != "" then
        [DocItem.heading "Profile",
          DocItem.para (if e1 && k1 != "" then enh1 cv.profile "profile" else cv.profile),
          DocItem.spacer]
      else []).map eraseParaText
      = (if cv.profile != "" then
        [DocItem.heading "Profile",
          DocItem.para (if e2 && k2 != "" then enh2 cv.profile "profile" else cv.profile),
          DocItem.spacer]
      else []).map eraseParaText := by
    split_ifs <;> simp [eraseParaText]
  have hs : (if cv.skills != "" then
        [DocItem.heading "Skills & Abilities",
          DocItem.para (if e1 && k1 != "" then enh1 cv.skills "skills" else cv.skills),
          DocItem.spacer]
      else []).map eraseParaText
      = (if cv.skills != "" then
        [DocItem.heading "Skills & Abilities",
          DocItem.para (if e2 && k2 != "" then enh2 cv.skills "skills" else cv.skills),
          DocItem.spacer]
      else []).map eraseParaText := by
    split_ifs <;> simp [eraseParaText]
  have ha : (if cv.activities != "" then
        [DocItem.heading "Activities and Interests",
          DocItem.para (if e1 && k1 != "" then enh1 cv.activities "activities" else cv.activities)]
      else []).map eraseParaText
      = (if cv.activities != "" then
        [DocItem.heading "Activities and Interests",
          DocItem.para (if e2 && k2 != "" then enh2 cv.activities "activities" else cv.activities)]
      else []).map eraseParaText := by
    split_ifs <;> simp [eraseParaText]
  rw [hp, hs, ha]

/-! ### Claim theorems -/

/-- C4: for every text and every section kind, `enhance_with_groq` returns
the text unchanged and makes no network call whenever the credential is
absent/empty or the text is empty/whitespace-only. -/
theorem enhancer_skips_without_credential_or_text (text kind : String)
    (net : NetResult) :
    enhance_with_groq text kind "" net = (text, 0)
    ∧ ∀ key, strip text = "" → enhance_with_groq text kind key net = (text, 0) := by
  constructor
  · simp [enhance_with_groq]
  · intro key h
    simp [enhance_with_groq, h]

/-- Witness for C4 at concrete inputs: an empty credential, and a
whitespace-only text with a credential present. -/
theorem enhancer_skips_witness :
    enhance_with_groq "hello" "profile" "" (NetResult.exn "boom") = ("hello", 0)
    ∧ enhance_with_groq "   " "skills" "key" (NetResult.exn "boom") = ("   ", 0) :=
  ⟨(enhancer_skips_without_credential_or_text "hello" "profile" (NetResult.exn "boom")).1,
   (enhancer_skips_without_credential_or_text "   " "skills" (NetResult.exn "boom")).2
     "key" (by decide)⟩

/-- C5: on every failure of the external call — an exception (network
error or timeout), a non-success HTTP status, or a malformed payload —
the enhancer returns the original text unchanged.  (Being a total
function, it cannot abort document generation.) -/
theorem enhancer_failure_returns_original_text (text kind key msg : String)
    (status : Nat) (content : Option String) :
    (enhance_with_groq text kind key (NetResult.exn msg)).1 = text
    ∧ (status ≠ 200 →
        (enhance_with_groq text kind key (NetResult.resp status content)).1 = text)
    ∧ (enhance_with_groq text kind key (NetResult.resp 200 none)).1 = text := by
  refine ⟨?_, fun h => ?_, ?_⟩
  · simp only [enhance_with_groq]
    split <;> simp
  · simp only [enhance_with_groq]
    split
    · simp
    · simp [h]
  · simp only [enhance_with_groq]
    split <;> simp

/-- Witness for C5: a timeout-style exception, a 500 status, and a
malformed payload, each at concrete inputs. -/
theorem enhancer_failure_witness :
    (enhance_with_groq "txt" "skills" "key" (NetResult.exn "timeout")).1 = "txt"
    ∧ (enhance_with_groq "txt" "skills" "key" (NetResult.resp 500 (some "X"))).1 = "txt"
    ∧ (enhance_with_groq "txt" "skills" "key" (NetResult.resp 200 none)).1 = "txt" :=
  ⟨(enhancer_failure_returns_original_text "txt" "skills" "key" "timeout" 500 (some "X")).1,
   (enhancer_failure_returns_original_text "txt" "skills" "key" "timeout" 500 (some "X")).2.1
     (by decide),
   (enhancer_failure_returns_original_text "txt" "skills" "key" "timeout" 500 (some "X")).2.2⟩

/-- C7: with a non-empty credential and a text that actually triggers a
request (non-whitespace), a success response whose payload carries content
`X` makes the enhancer return `X` stripped of surrounding whitespace; in
particular an already-stripped `X` is returned as is. -/
theorem enhancer_success_returns_trimmed_content (text kind key X : String)
    (hk : key ≠ "") (ht : strip text ≠ "") :
    (enhance_with_groq text kind key (NetResult.resp 200 (some X))).1 = strip X
    ∧ (strip X = X →
        (enhance_with_groq text kind key (NetResult.resp 200 (some X))).1 = X) := by
  have h : (enhance_with_groq text kind key (NetResult.resp 200 (some X))).1 = strip X := by
    simp [enhance_with_groq, hk, ht]
  exact ⟨h, fun hX => by rw [h, hX]⟩

/-- Witness for C7 at a concrete success response. -/
theorem enhancer_success_witness :
    (enhance_with_groq "desc" "experience" "key" (NetResult.resp 200 (some " X "))).1 = "X" := by
  rw [(enhancer_success_returns_trimmed_content "desc" "experience" "key" " X "
    (by decide) (by decide)).1]
  decide

/-- C3 (amended): when a required field (name, profile or skills) is
missing, the result is a validation error independent of the assembly
outcome — assembly is never invoked — but the error is the fixed generic
string of `app.py` line 363, which does not name the missing fields. -/
theorem validation_rejects_before_assembly (cv : CVRecord)
    (assembly : Except String (List DocItem))
    (h : cv.name = "" ∨ cv.profile = "" ∨ cv.skills = "") :
    generate_cv cv assembly
      = GenerateResult.validationError "Please fill in all required fields (marked with *)" := by
  unfold generate_cv
  rw [if_pos h]

/-- Witness for the amended C3: a record with empty skills is rejected. -/
theorem validation_rejects_witness :
    generate_cv ⟨"John", "Profile text", [], [], "", ""⟩ (Except.ok [])
      = GenerateResult.validationError "Please fill in all required fields (marked with *)" :=
  validation_rejects_before_assembly ⟨"John", "Profile text", [], [], "", ""⟩
    (Except.ok []) (Or.inr (Or.inr rfl))

/-- C3 (counterexample): a request missing only `skills` and a request
missing only `name` receive the *same* fixed error message, so the
validation error does not name which required fields are missing. -/
theorem validation_message_independent_of_missing_field :
    generate_cv ⟨"John", "p", [], [], "", ""⟩ (Except.ok [])
      = GenerateResult.validationError "Please fill in all required fields (marked with *)"
    ∧ generate_cv ⟨"", "p", [], [], "Go", ""⟩ (Except.ok [])
      = GenerateResult.validationError "Please fill in all required fields (marked with *)" := by
  decide

/-- C8: when validation passes and document assembly raises, the request
fails with the underlying message (prefixed as in `app.py` line 392) and
no document artifact is produced. -/
theorem assembly_exception_fails_request (cv : CVRecord) (msg : String)
    (h1 : cv.name ≠ "") (h2 : cv.profile ≠ "") (h3 : cv.skills ≠ "") :
    generate_cv cv (Except.error msg)
      = GenerateResult.generationError ("Error generating CV: " ++ msg)
    ∧ ∀ d, generate_cv cv (Except.error msg) ≠ GenerateResult.generated d := by
  have hcond : ¬(cv.name = "" ∨ cv.profile = "" ∨ cv.skills = "") := by
    push_neg
    exact ⟨h1, h2, h3⟩
  unfold generate_cv
  rw [if_neg hcond]
  simp

/-- Witness for C8 at a concrete record and exception message. -/
theorem assembly_exception_witness :
    generate_cv ⟨"John", "p", [], [], "Go", ""⟩ (Except.error "boom")
      = GenerateResult.generationError "Error generating CV: boom" := by
  rw [(assembly_exception_fails_request ⟨"John", "p", [], [], "Go", ""⟩ "boom"
    (by decide) (by decide) (by decide)).1]
  decide

/-- C9: validation accepts required fields that are non-empty but
whitespace-only — truthiness without trimming — so assembly is invoked
and the document's first paragraph is the centered title carrying the
whitespace name verbatim. -/
theorem validation_accepts_whitespace_required_fields (cv : CVRecord) (e : Bool)
    (k : String) (enh : String → String → String)
    (hn : cv.name ≠ "") (hp : cv.profile ≠ "") (hs : cv.skills ≠ "")
    (wn : strip cv.name = "") (wp : strip cv.profile = "") (ws : strip cv.skills = "") :
    generate_cv_ok cv e k enh
      = GenerateResult.generated (create_cv_document cv (e && k != "") k enh).1
    ∧ ((create_cv_document cv (e && k != "") k enh).1).head?
      = some (DocItem.titlePara cv.name) := by
  constructor
  · unfold generate_cv_ok generate_cv
    rw [if_neg (by push_neg; exact ⟨hn, hp, hs⟩)]
  · simp [create_cv_document, hn]

/-- Witness for C9: all three required fields are whitespace-only. -/
theorem validation_accepts_whitespace_witness :
    generate_cv_ok ⟨"   ", " ", [], [], "  ", ""⟩ false "" (fun t _ => t)
      = GenerateResult.generated
          (create_cv_document ⟨"   ", " ", [], [], "  ", ""⟩ false "" (fun t _ => t)).1
    ∧ ((create_cv_document ⟨"   ", " ", [], [], "  ", ""⟩ false "" (fun t _ => t)).1).head?
      = some (DocItem.titlePara "   ") :=
  validation_accepts_whitespace_required_fields ⟨"   ", " ", [], [], "  ", ""⟩ false ""
    (fun t _ => t) (by decide) (by decide) (by decide) (by decide) (by decide) (by decide)

/-- C2 (amended): the enhancer is invoked once per non-empty scalar
section (profile, skills, activities) and once per experience entry with
a non-empty description and per education entry with non-empty details —
the total grows with the number of entries instead of being capped at 5. -/
theorem enhancer_call_count_formula (cv : CVRecord) (e : Bool) (k : String)
    (enh : String → String → String) :
    (create_cv_document cv e k enh).2 =
      if e && k != "" then
        (if cv.profile ≠ "" then 1 else 0)
        + cv.experience.countP (fun x => x.description != "")
        + cv.education.countP (fun x => x.details != "")
        + (if cv.skills ≠ "" then 1 else 0)
        + (if cv.activities ≠ "" then 1 else 0)
      else 0 := by
  simp only [create_cv_document, expSection_count, eduSection_count]
  cases h : (e && k != "") <;> simp [h] <;> omega

/-- C2 (counterexample): a record with four experience entries carrying
descriptions plus profile, skills and activities triggers 7 enhancer
invocations on an enhancement-enabled run — more than the claimed cap
of 5. -/
theorem enhancer_call_count_exceeds_five :
    (create_cv_document
      ⟨"n", "p",
        [⟨"", "", "", "d1"⟩, ⟨"", "", "", "d2"⟩, ⟨"", "", "", "d3"⟩, ⟨"", "", "", "d4"⟩],
        [], "s", "a"⟩ true "k" (fun t _ => t)).2 = 7
    ∧ ¬ ((create_cv_document
      ⟨"n", "p",
        [⟨"", "", "", "d1"⟩, ⟨"", "", "", "d2"⟩, ⟨"", "", "", "d3"⟩, ⟨"", "", "", "d4"⟩],
        [], "s", "a"⟩ true "k" (fun t _ => t)).2 ≤ 5) := by
  decide

/-- C6 (amended): a rendered entry is followed by exactly one spacing
paragraph when it is not in the final list position and by none when it
is; a non-rendered entry emits nothing at all; each non-empty section
carries one trailing spacer after the entry loop.  Hence exactly one
spacer separates consecutive rendered entries, but a spacer also follows
the last rendered entry whenever non-rendered entries come after it in
the list. -/
theorem spacer_placement_by_list_position (flag : Bool)
    (enh : String → String → String) :
    (∀ e : ExperienceEntry, expCheck e →
        (expEntryItems flag enh false e).1
          = (expEntryItems flag enh true e).1 ++ [DocItem.spacer]
        ∧ DocItem.spacer ∉ (expEntryItems flag enh true e).1)
    ∧ (∀ (e : ExperienceEntry) (isLast : Bool), ¬ expCheck e →
        expEntryItems flag enh isLast e = ([], 0))
    ∧ (∀ exps : List ExperienceEntry, exps ≠ [] →
        (expSection flag enh exps).1
          = DocItem.heading "Experience" :: (expEntriesItems flag enh exps).1
              ++ [DocItem.spacer])
    ∧ (∀ e : EducationEntry, eduCheck e →
        (eduEntryItems flag enh false e).1
          = (eduEntryItems flag enh true e).1 ++ [DocItem.spacer]
        ∧ DocItem.spacer ∉ (eduEntryItems flag enh true e).1)
    ∧ (∀ (e : EducationEntry) (isLast : Bool), ¬ eduCheck e →
        eduEntryItems flag enh isLast e = ([], 0))
    ∧ (∀ edus : List EducationEntry, edus ≠ [] →
        (eduSection flag enh edus).1
          = DocItem.heading "Education" :: (eduEntriesItems flag enh edus).1
              ++ [DocItem.spacer]) := by
  refine ⟨fun e h => ⟨?_, ?_⟩, fun e isLast h => ?_, fun exps h => ?_,
    fun e h => ⟨?_, ?_⟩, fun e isLast h => ?_, fun edus h => ?_⟩
  · simp [expEntryItems, h, List.append_assoc]
  · simp only [expEntryItems, h, if_true]
    split_ifs <;> simp
  · simp [expEntryItems, h]
  · cases exps with
    | nil => exact absurd rfl h
    | cons x rest => simp [expSection]
  · simp [eduEntryItems, h, List.append_assoc]
  · simp only [eduEntryItems, h, if_true]
    split_ifs <;> simp
  · simp [eduEntryItems, h]
  · cases edus with
    | nil => exact absurd rfl h
    | cons x rest => simp [eduSection]

/-- Witness for the amended C6: a rendered entry in non-final position
gets exactly one trailing spacer, and an all-empty entry emits nothing. -/
theorem spacer_placement_witness :
    (expEntryItems false (fun t _ => t) false ⟨"Dev", "Acme", "", ""⟩).1
      = (expEntryItems false (fun t _ => t) true ⟨"Dev", "Acme", "", ""⟩).1
          ++ [DocItem.spacer]
    ∧ expEntryItems false (fun t _ => t) true ⟨"", "", "", ""⟩ = ([], 0) :=
  ⟨((spacer_placement_by_list_position false (fun t _ => t)).1
      ⟨"Dev", "Acme", "", ""⟩ (by decide)).1,
   (spacer_placement_by_list_position false (fun t _ => t)).2.1
      ⟨"", "", "", ""⟩ true (by decide)⟩

/-- C6 (counterexample): with a rendered first entry followed by an
all-empty (non-rendered) second entry, the Experience section ends with
two consecutive spacers — the between-entry spacer is emitted after the
last rendered entry (because its index is not last), contradicting the
claim that no spacer follows the last rendered entry. -/
theorem spacer_follows_last_rendered_entry :
    (expSection false (fun t _ => t) [⟨"Dev", "Acme", "", ""⟩, ⟨"", "", "", ""⟩]).1
      = [DocItem.heading "Experience", DocItem.boldPara "Dev - Acme",
         DocItem.spacer, DocItem.spacer]
    ∧ expCheck ⟨"", "", "", ""⟩ = false := by
  decide

/-- Which level-1 headings the assembled document contains: exactly those
of the sections whose source field is non-empty (Python truthiness, no
trimming). -/
theorem heading_mem_create_cv_document (cv : CVRecord) (e : Bool) (k : String)
    (enh : String → String → String) (t : String) :
    DocItem.heading t ∈ (create_cv_document cv e k enh).1 ↔
      (cv.profile ≠ "" ∧ t = "Profile")
      ∨ (cv.experience ≠ [] ∧ t = "Experience")
      ∨ (cv.education ≠ [] ∧ t = "Education")
      ∨ (cv.skills ≠ "" ∧ t = "Skills & Abilities")
      ∨ (cv.activities ≠ "" ∧ t = "Activities and Interests") := by
  simp only [create_cv_document, List.mem_append]
  rw [heading_mem_expSection, heading_mem_eduSection,
    mem_ite_nil, mem_ite_nil, mem_ite_nil, mem_ite_nil]
  simp only [List.mem_cons, List.mem_singleton, List.not_mem_nil]
  simp [bne_iff_ne]
  tauto

/-- The document contains a centered title paragraph exactly when the
name field is non-empty. -/
theorem titlePara_mem_create_cv_document (cv : CVRecord) (e : Bool) (k : String)
    (enh : String → String → String) :
    (∃ s, DocItem.titlePara s ∈ (create_cv_document cv e k enh).1) ↔ cv.name ≠ "" := by
  simp only [create_cv_document, List.mem_append]
  constructor
  · rintro ⟨s, ((((h | h) | h) | h) | h) | h⟩
    · rw [mem_ite_nil] at h
      simpa [bne_iff_ne] using h.1
    · rw [mem_ite_nil] at h
      simp at h
    · exact absurd h (titlePara_not_mem_expSection _ _ _ _)
    · exact absurd h (titlePara_not_mem_eduSection _ _ _ _)
    · rw [mem_ite_nil] at h
      simp at h
    · rw [mem_ite_nil] at h
      simp at h
  · intro h
    refine ⟨cv.name, Or.inl (Or.inl (Or.inl (Or.inl (Or.inl ?_))))⟩
    rw [mem_ite_nil]
    exact ⟨by simp [h], by simp⟩

/-- C1 (amended): a section (heading and body) or the title paragraph is
present in the output iff the source field is non-empty as a string —
Python truthiness, with no trimming; in particular a whitespace-only
field still produces its section. -/
theorem section_presence_iff_nonempty_field (cv : CVRecord) (e : Bool) (k : String)
    (enh : String → String → String) :
    (DocItem.heading "Profile" ∈ (create_cv_document cv e k enh).1 ↔ cv.profile ≠ "")
    ∧ (DocItem.heading "Experience" ∈ (create_cv_document cv e k enh).1 ↔ cv.experience ≠ [])
    ∧ (DocItem.heading "Education" ∈ (create_cv_document cv e k enh).1 ↔ cv.education ≠ [])
    ∧ (DocItem.heading "Skills & Abilities" ∈ (create_cv_document cv e k enh).1 ↔ cv.skills ≠ "")
    ∧ (DocItem.heading "Activities and Interests" ∈ (create_cv_document cv e k enh).1
        ↔ cv.activities ≠ "")
    ∧ ((∃ s, DocItem.titlePara s ∈ (create_cv_document cv e k enh).1) ↔ cv.name ≠ "") := by
  refine ⟨?_, ?_, ?_, ?_, ?_, titlePara_mem_create_cv_document cv e k enh⟩ <;>
    rw [heading_mem_create_cv_document] <;> simp

/-- C1 (counterexample): a profile of three spaces is whitespace-only
(it strips to the empty string) yet the assembled document does contain
the `Profile` heading and a paragraph holding the whitespace text. -/
theorem whitespace_profile_still_emits_heading :
    (create_cv_document ⟨"", "   ", [], [], "", ""⟩ false "" (fun t _ => t)).1
      = [DocItem.heading "Profile", DocItem.para "   ", DocItem.spacer]
    ∧ strip "   " = "" := by
  decide

/-- An item emitted by an entry at every list position is emitted by the
entry loop for any list containing that entry. -/
theorem mem_expEntriesItems_of_mem (flag : Bool) (enh : String → String → String)
    (item : DocItem) (x : ExperienceEntry)
    (h : ∀ b : Bool, item ∈ (expEntryItems flag enh b x).1) :
    ∀ exps : List ExperienceEntry, x ∈ exps → item ∈ (expEntriesItems flag enh exps).1
  | [] => fun hx => absurd hx (List.not_mem_nil x)
  | [e] => by
      intro hx
      rcases List.mem_singleton.mp hx with rfl
      simpa only [expEntriesItems] using h true
  | e :: e2 :: rest => by
      intro hx
      simp only [expEntriesItems, List.mem_append]
      rcases List.mem_cons.mp hx with rfl | hx2
      · exact Or.inl (h false)
      · exact Or.inr (mem_expEntriesItems_of_mem flag enh item x h (e2 :: rest) hx2)

/-- Lifting entry-loop membership into the Experience section. -/
theorem mem_expSection_of_mem (flag : Bool) (enh : String → String → String)
    (item : DocItem) (x : ExperienceEntry) (exps : List ExperienceEntry)
    (h : ∀ b : Bool, item ∈ (expEntryItems flag enh b x).1) (hx : x ∈ exps) :
    item ∈ (expSection flag enh exps).1 := by
  cases exps with
  | nil => exact absurd hx (List.not_mem_nil x)
  | cons e rest =>
      have hm := mem_expEntriesItems_of_mem flag enh item x h (e :: rest) hx
      simp [expSection, List.mem_append, hm]

/-- The analogue of `mem_expEntriesItems_of_mem` for education entries. -/
theorem mem_eduEntriesItems_of_mem (flag : Bool) (enh : String → String → String)
    (item : DocItem) (x : EducationEntry)
    (h : ∀ b : Bool, item ∈ (eduEntryItems flag enh b x).1) :
    ∀ edus : List EducationEntry, x ∈ edus → item ∈ (eduEntriesItems flag enh edus).1
  | [] => fun hx => absurd hx (List.not_mem_nil x)
  | [e] => by
      intro hx
      rcases List.mem_singleton.mp hx with rfl
      simpa only [eduEntriesItems] using h true
  | e :: e2 :: rest => by
      intro hx
      simp only [eduEntriesItems, List.mem_append]
      rcases List.mem_cons.mp hx with rfl | hx2
      · exact Or.inl (h false)
      · exact Or.inr (mem_eduEntriesItems_of_mem flag enh item x h (e2 :: rest) hx2)

/-- Lifting entry-loop membership into the Education section. -/
theorem mem_eduSection_of_mem (flag : Bool) (enh : String → String → String)
    (item : DocItem) (x : EducationEntry) (edus : List EducationEntry)
    (h : ∀ b : Bool, item ∈ (eduEntryItems flag enh b x).1) (hx : x ∈ edus) :
    item ∈ (eduSection flag enh edus).1 := by
  cases edus with
  | nil => exact absurd hx (List.not_mem_nil x)
  | cons e rest =>
      have hm := mem_eduEntriesItems_of_mem flag enh item x h (e :: rest) hx
      simp [eduSection, List.mem_append, hm]

/-- Lifting Experience-section membership into the whole document. -/
theorem mem_create_of_mem_expSection (cv : CVRecord) (e : Bool) (k : String)
    (enh : String → String → String) (item : DocItem)
    (h : item ∈ (expSection (e && k != "") enh cv.experience).1) :
    item ∈ (create_cv_document cv e k enh).1 := by
  simp only [create_cv_document, List.mem_append]
  tauto

/-- Lifting Education-section membership into the whole document. -/
theorem mem_create_of_mem_eduSection (cv : CVRecord) (e : Bool) (k : String)
    (enh : String → String → String) (item : DocItem)
    (h : item ∈ (eduSection (e && k != "") enh cv.education).1) :
    item ∈ (create_cv_document cv e k enh).1 := by
  simp only [create_cv_document, List.mem_append]
  tauto

/-- The bold job line is emitted verbatim whenever position and company
are both present, at any list position. -/
theorem boldPara_mem_expEntryItems (flag : Bool) (enh : String → String → String)
    (b : Bool) (x : ExperienceEntry) (hp : x.position ≠ "") (hc : x.company ≠ "") :
    DocItem.boldPara (x.position ++ " - " ++ x.company) ∈ (expEntryItems flag enh b x).1 := by
  have hchk : expCheck x = true := by
    simp only [expCheck, Bool.or_eq_true, bne_iff_ne, ne_eq]
    tauto
  simp only [expEntryItems, hchk, if_true]
  simp [List.mem_append, mem_ite_nil, bne_iff_ne, hp, hc]

/-- The bulleted duration line is emitted verbatim for every rendered
entry with a duration, at any list position. -/
theorem bulletPara_mem_expEntryItems (flag : Bool) (enh : String → String → String)
    (b : Bool) (x : ExperienceEntry) (hchk : expCheck x) (hd : x.duration ≠ "") :
    DocItem.bulletPara x.duration ∈ (expEntryItems flag enh b x).1 := by
  simp only [expEntryItems, hchk, if_true]
  simp [List.mem_append, mem_ite_nil, bne_iff_ne, hd]

/-- The bold degree line is emitted verbatim whenever degree and
institution are both present, at any list position. -/
theorem boldPara_mem_eduEntryItems (flag : Bool) (enh : String → String → String)
    (b : Bool) (x : EducationEntry) (hd : x.degree ≠ "") (hi : x.institution ≠ "") :
    DocItem.boldPara (x.degree ++ " - " ++ x.institution) ∈ (eduEntryItems flag enh b x).1 := by
  have hchk : eduCheck x = true := by
    simp only [eduCheck, Bool.or_eq_true, bne_iff_ne, ne_eq]
    tauto
  simp only [eduEntryItems, hchk, if_true]
  simp [List.mem_append, mem_ite_nil, bne_iff_ne, hd, hi]

/-- The year paragraph is emitted verbatim for every rendered education
entry with a year, at any list position. -/
theorem para_year_mem_eduEntryItems (flag : Bool) (enh : String → String → String)
    (b : Bool) (x : EducationEntry) (hchk : eduCheck x) (hy : x.year ≠ "") :
    DocItem.para x.year ∈ (eduEntryItems flag enh b x).1 := by
  simp only [eduEntryItems, hchk, if_true]
  simp [List.mem_append, mem_ite_nil, bne_iff_ne, hy]

/-- C10: for every record, enhancement setting, credential, and enhancer
behaviour, the title paragraph, the bold job and degree lines, the
bulleted duration lines, and the year paragraphs carry the input strings
verbatim, and enhancement can influence only the text of plain
paragraphs (profile, descriptions, details, skills, activities): erasing
plain-paragraph text makes the document independent of the enhancement
setting, the credential, and the enhancer. -/
theorem non_enhanceable_items_verbatim (cv : CVRecord) (e1 e2 : Bool)
    (k1 k2 : String) (enh1 enh2 : String → String → String) :
    (create_cv_document cv e1 k1 enh1).1.map eraseParaText
      = (create_cv_document cv e2 k2 enh2).1.map eraseParaText
    ∧ (cv.name ≠ "" →
        ((create_cv_document cv e1 k1 enh1).1).head? = some (DocItem.titlePara cv.name))
    ∧ (∀ x ∈ cv.experience, x.position ≠ "" → x.company ≠ "" →
        DocItem.boldPara (x.position ++ " - " ++ x.company)
          ∈ (create_cv_document cv e1 k1 enh1).1)
    ∧ (∀ x ∈ cv.experience, expCheck x → x.duration ≠ "" →
        DocItem.bulletPara x.duration ∈ (create_cv_document cv e1 k1 enh1).1)
    ∧ (∀ x ∈ cv.education, x.degree ≠ "" → x.institution ≠ "" →
        DocItem.boldPara (x.degree ++ " - " ++ x.institution)
          ∈ (create_cv_document cv e1 k1 enh1).1)
    ∧ (∀ x ∈ cv.education, eduCheck x → x.year ≠ "" →
        DocItem.para x.year ∈ (create_cv_document cv e1 k1 enh1).1) := by
  refine ⟨erase_create_cv_document cv e1 e2 k1 k2 enh1 enh2,
    fun hn => by simp [create_cv_document, hn],
    fun x hx hp hc => ?_, fun x hx hchk hd => ?_,
    fun x hx hd hi => ?_, fun x hx hchk hy => ?_⟩
  · exact mem_create_of_mem_expSection cv e1 k1 enh1 _
      (mem_expSection_of_mem _ enh1 _ x cv.experience
        (fun b => boldPara_mem_expEntryItems _ enh1 b x hp hc) hx)
  · exact mem_create_of_mem_expSection cv e1 k1 enh1 _
      (mem_expSection_of_mem _ enh1 _ x cv.experience
        (fun b => bulletPara_mem_expEntryItems _ enh1 b x hchk hd) hx)
  · exact mem_create_of_mem_eduSection cv e1 k1 enh1 _
      (mem_eduSection_of_mem _ enh1 _ x cv.education
        (fun b => boldPara_mem_eduEntryItems _ enh1 b x hd hi) hx)
  · exact mem_create_of_mem_eduSection cv e1 k1 enh1 _
      (mem_eduSection_of_mem _ enh1 _ x cv.education
        (fun b => para_year_mem_eduEntryItems _ enh1 b x hchk hy) hx)

/-- Witness for C10: a fully populated record, enhancement enabled with a
text-mangling enhancer — the formatted identity lines still appear
verbatim. -/
theorem non_enhanceable_items_witness :
    ((create_cv_document
        ⟨"Jane", "prof", [⟨"Dev", "Acme", "2020", "did"⟩],
          [⟨"BSc", "Uni", "2019", "gpa"⟩], "Go", "chess"⟩
        true "k" (fun t _ => t ++ "!")).1).head? = some (DocItem.titlePara "Jane")
    ∧ DocItem.boldPara "Dev - Acme"
        ∈ (create_cv_document
            ⟨"Jane", "prof", [⟨"Dev", "Acme", "2020", "did"⟩],
              [⟨"BSc", "Uni", "2019", "gpa"⟩], "Go", "chess"⟩
            true "k" (fun t _ => t ++ "!")).1
    ∧ DocItem.bulletPara "2020"
        ∈ (create_cv_document
            ⟨"Jane", "prof", [⟨"Dev", "Acme", "2020", "did"⟩],
              [⟨"BSc", "Uni", "2019", "gpa"⟩], "Go", "chess"⟩
            true "k" (fun t _ => t ++ "!")).1
    ∧ DocItem.boldPara "BSc - Uni"
        ∈ (create_cv_document
            ⟨"Jane", "prof", [⟨"Dev", "Acme", "2020", "did"⟩],
              [⟨"BSc", "Uni", "2019", "gpa"⟩], "Go", "chess"⟩
            true "k" (fun t _ => t ++ "!")).1
    ∧ DocItem.para "2019"
        ∈ (create_cv_document
            ⟨"Jane", "prof", [⟨"Dev", "Acme", "2020", "did"⟩],
              [⟨"BSc", "Uni", "2019", "gpa"⟩], "Go", "chess"⟩
            true "k" (fun t _ => t ++ "!")).1 :=
  ⟨(non_enhanceable_items_verbatim
      ⟨"Jane", "prof", [⟨"Dev", "Acme", "2020", "did"⟩],
        [⟨"BSc", "Uni", "2019", "gpa"⟩], "Go", "chess"⟩
      true true "k" "k" (fun t _ => t ++ "!") (fun t _ => t ++ "!")).2.1 (by decide),
   (non_enhanceable_items_verbatim
      ⟨"Jane", "prof", [⟨"Dev", "Acme", "2020", "did"⟩],
        [⟨"BSc", "Uni", "2019", "gpa"⟩], "Go", "chess"⟩
      true true "k" "k" (fun t _ => t ++ "!") (fun t _ => t ++ "!")).2.2.1
     ⟨"Dev", "Acme", "2020", "did"⟩ (by decide) (by decide) (by decide),
   (non_enhanceable_items_verbatim
      ⟨"Jane", "prof", [⟨"Dev", "Acme", "2020", "did"⟩],
        [⟨"BSc", "Uni", "2019", "gpa"⟩], "Go", "chess"⟩
      true true "k" "k" (fun t _ => t ++ "!") (fun t _ => t ++ "!")).2.2.2.1
     ⟨"Dev", "Acme", "2020", "did"⟩ (by decide) (by decide) (by decide),
   (non_enhanceable_items_verbatim
      ⟨"Jane", "prof", [⟨"Dev", "Acme", "2020", "did"⟩],
        [⟨"BSc", "Uni", "2019", "gpa"⟩], "Go", "chess"⟩
      true true "k" "k" (fun t _ => t ++ "!") (fun t _ => t ++ "!")).2.2.2.2.1
     ⟨"BSc", "Uni", "2019", "gpa"⟩ (by decide) (by decide) (by decide),
   (non_enhanceable_items_verbatim
      ⟨"Jane", "prof", [⟨"Dev", "Acme", "2020", "did"⟩],
        [⟨"BSc", "Uni", "2019", "gpa"⟩], "Go", "chess"⟩
      true true "k" "k" (fun t _ => t ++ "!") (fun t _ => t ++ "!")).2.2.2.2.2
     ⟨"BSc", "Uni", "2019", "gpa"⟩ (by decide) (by decide) (by decide)⟩
